import Mathlib

/-!
Shallow embedding of the whis repository's shortcut/recording subsystem
(crates/whis-desktop/src/{tray.rs, shortcuts.rs}, crates/whis-core/src/settings.rs).

Rust strings are modelled as `String` / `List Char`; environment variables,
process outputs and collaborator calls (audio device, transcription HTTP call,
clipboard, D-Bus portal) are passed in explicitly as parameters so the embedded
functions are pure and executable.
-/

namespace Whis

/-- Recording lifecycle states, as used by `tray.rs` (`RecordingState`). -/
inductive RecordingState
  | Idle
  | Recording
  | Processing
deriving DecidableEq, Repr

/-- Shortcut backend kinds from `shortcuts.rs` (`ShortcutBackend`).
`TauriPlugin` is the spec's `NativeHotkey`, `PortalGlobalShortcuts` the spec's
`PortalProtocol`, `CLIFallback` the spec's `CliFallback`. -/
inductive ShortcutBackend
  | TauriPlugin
  | PortalGlobalShortcuts
  | CLIFallback
deriving DecidableEq, Repr

/-- `ShortcutCapability` from `shortcuts.rs`. -/
structure ShortcutCapability where
  backend : ShortcutBackend
  compositor : String
deriving DecidableEq, Repr

/-- The environment signals `detect_backend` and its helpers read.
`xdgSessionType`/`xdgCurrentDesktop`/`desktopSession` model `env::var(..)`
results (`none` = variable unset); `waylandDisplaySet` models
`env::var("WAYLAND_DISPLAY").is_ok()`; `portalProbe` models the outcome of the
`busctl introspect` probe in `check_portal_available` (`none` = the command
failed, `some b` = the command ran and `b` says whether its output contains
"GlobalShortcuts"). -/
structure EnvProbe where
  xdgSessionType : Option String
  waylandDisplaySet : Bool
  xdgCurrentDesktop : Option String
  desktopSession : Option String
  portalProbe : Option Bool

/-- `check_portal_available` from `shortcuts.rs`: probe output mapped with
`contains("GlobalShortcuts")`, `unwrap_or(false)`. -/
def check_portal_available (e : EnvProbe) : Bool :=
  e.portalProbe.getD false

/-- `detect_compositor` from `shortcuts.rs`: `XDG_CURRENT_DESKTOP`, falling
back to `DESKTOP_SESSION`, falling back to `"Unknown"`. -/
def detect_compositor (e : EnvProbe) : String :=
  match e.xdgCurrentDesktop with
  | some d => d
  | none =>
    match e.desktopSession with
    | some d => d
    | none => "Unknown"

/-- `detect_backend` from `shortcuts.rs`, lines 72-96. -/
def detect_backend (e : EnvProbe) : ShortcutCapability :=
  let session_type := e.xdgSessionType.getD ""
  let wayland_display := e.waylandDisplaySet
  if session_type = "wayland" ∨ wayland_display then
    if check_portal_available e then
      { backend := ShortcutBackend.PortalGlobalShortcuts, compositor := detect_compositor e }
    else
      { backend := ShortcutBackend.CLIFallback, compositor := detect_compositor e }
  else
    { backend := ShortcutBackend.TauriPlugin, compositor := "X11" }

/-- The backend-selection function exactly as the claim C3 words it: a
function of `(session_type, wayland_display_present, portal_probe_result)`.
Written from the spec's words, to be compared with `detect_backend`. -/
def claimBackendSelect (sessionType : String) (waylandPresent probeSupported : Bool) :
    ShortcutBackend :=
  if sessionType = "wayland" ∨ waylandPresent then
    if probeSupported then ShortcutBackend.PortalGlobalShortcuts
    else ShortcutBackend.CLIFallback
  else ShortcutBackend.TauriPlugin

/-- Whitespace predicate matching Rust `char::is_whitespace`
(the Unicode White_Space code points). -/
def isRustWhitespace (c : Char) : Bool :=
  let n := c.toNat
  (9 ≤ n && n ≤ 13) || n == 32 || n == 133 || n == 160 || n == 0x1680 ||
    (0x2000 ≤ n && n ≤ 0x200A) || n == 0x2028 || n == 0x2029 || n == 0x202F ||
    n == 0x205F || n == 0x3000

/-- Rust `str::trim`: strip leading and trailing whitespace. -/
def trimChars (s : List Char) : List Char :=
  ((s.dropWhile isRustWhitespace).reverse.dropWhile isRustWhitespace).reverse

/-- Per-connection handling of the IPC listener loop body
(`start_ipc_listener`, `shortcuts.rs` lines 463-481): the read goes into a
64-byte buffer (`bytes.take 64`); a read error is swallowed by the
`if let Ok(n)`; the received text is trimmed and compared with `"toggle"`.
The result is the number of Toggle Dispatcher invocations this connection
causes; the function is total, so no error reaches the listener loop. -/
def handleConnection (readOutcome : Except String (List Char)) : Nat :=
  match readOutcome with
  | Except.error _ => 0
  | Except.ok bytes =>
    let buf := bytes.take 64
    if trimChars buf = "toggle".data then 1 else 0

/-- `get_socket_path` from `shortcuts.rs` lines 485-488. -/
def get_socket_path (xdgRuntimeDir : Option String) : String :=
  let runtime_dir := xdgRuntimeDir.getD "/tmp"
  runtime_dir ++ "/whis-desktop.sock"

/-- `get_portal_version` from `shortcuts.rs` lines 34-52: parse the last
whitespace-separated word of the `busctl get-property` output (e.g. "u 2");
any failure yields 0. -/
def get_portal_version (busctlOut : Option String) : Nat :=
  match busctlOut with
  | none => 0
  | some o =>
    (((o.split fun c => isRustWhitespace c).filter (fun w => w ≠ "")).getLast?.bind
      String.toNat?).getD 0

/-- `open_configure_shortcuts` from `shortcuts.rs` lines 237-284, with the
D-Bus collaborators abstracted: `portalVersion` is the `get_portal_version()`
result and `listShortcuts` the `(id, trigger_description)` pairs the final
`list_shortcuts` call would report. Besides the result, the Booleans record
whether the re-bind call and the configuration dialog were reached. -/
def open_configure_shortcuts (portalVersion : Nat) (listShortcuts : List (String × String)) :
    Except String (Option String) × Bool × Bool :=
  if portalVersion < 2 then
    (Except.error "ConfigureShortcuts requires Portal version 2+", false, false)
  else
    let trigger := (listShortcuts.find? fun p => p.1 == "toggle-recording").map (fun p => p.2)
    (Except.ok trigger, true, true)

/-- Abstract audio capture handle (`AudioRecorder`); the payloads it produces
are abstracted to numbers. -/
structure Recorder where
  id : Nat
deriving DecidableEq, Repr

/-- `AudioResult` from `whis-core` as consumed by `tray.rs`: a single audio
payload or a chunked one. -/
inductive AudioResult
  | single (payload : Nat)
  | chunked (chunks : List Nat)
deriving DecidableEq, Repr

/-- `Config` as used by `tray.rs` (`Config { openai_api_key }`). -/
structure ApiConfig where
  openai_api_key : String
deriving DecidableEq, Repr

/-- `Settings` from `whis-core/src/settings.rs`. -/
structure Settings where
  shortcut : String
  openai_api_key : Option String
deriving DecidableEq, Repr

/-- `Settings::default` from `settings.rs` lines 13-20. -/
def Settings.default : Settings :=
  { shortcut := "Ctrl+Shift+R", openai_api_key := none }

/-- `Settings::load` from `settings.rs` lines 32-40. The on-disk condition is
`readResult` (`none` = file missing/unreadable, `some content` = read
succeeded), and `parse` abstracts `serde_json::from_str` (`none` = parse
error). -/
def Settings.load (readResult : Option String) (parse : String → Option Settings) : Settings :=
  match readResult with
  | some content =>
    match parse content with
    | some st => st
    | none => Settings.default
  | none => Settings.default

/-- The `AppState` fields that the toggle/recording path touches
(`state.rs` / `tray.rs`). `state.rs` in this snapshot names the third state
`Transcribing`, but `tray.rs` — the code under verification — matches on
`Processing`; the embedding follows `tray.rs`. -/
structure AppStateM where
  state : RecordingState
  recorder : Option Recorder
  config : Option ApiConfig
  settings : Settings
  portal_shortcut : Option String
deriving DecidableEq, Repr

/-- Observable side effects of one dispatch: number of transcription
collaborator calls, texts successfully written to the clipboard, and UI
refreshes pushed (`update_tray` calls, by target state). -/
structure Effects where
  transcribeCalls : Nat
  clipboardWrites : List String
  uiRefreshes : List RecordingState
deriving DecidableEq, Repr

/-- Collaborator outcomes for `stop_and_transcribe`: `stopSave` is the
`recorder.stop_and_save()` result, `transcribeSingle`/`transcribeChunked` the
transcription collaborators, `clipboardOk` whether `copy_to_clipboard`
succeeds (on failure nothing is published). -/
structure TranscribeEnv where
  stopSave : Except String AudioResult
  transcribeSingle : Nat → Except String String
  transcribeChunked : List Nat → Except String String
  clipboardOk : Bool

/-- Collaborator outcomes for `start_recording_sync`: `envApiKey` models
`std::env::var("OPENAI_API_KEY").ok()`, `recorderNew` the
`AudioRecorder::new()` result, `startRecording` the
`recorder.start_recording()` result. -/
structure StartEnv where
  envApiKey : Option String
  recorderNew : Except String Recorder
  startRecording : Except String Unit

/-- `stop_and_transcribe` from `tray.rs` lines 175-240, translated
line-by-line: set state to `Processing` and push a UI refresh; take the
recorder (error if absent); read the cached config (error if absent);
finalize the capture; transcribe (single payload via the blocking call,
chunked via the parallel call); copy to clipboard; only on that full success
path set state back to `Idle` and push a UI refresh. Every `?`-style early
return propagates the error with the state as it stands at that point. -/
def stop_and_transcribe (env : TranscribeEnv) (s : AppStateM) :
    Except String Unit × AppStateM × Effects :=
  let s1 : AppStateM := { s with state := RecordingState.Processing }
  let eff0 : Effects := ⟨0, [], [RecordingState.Processing]⟩
  match s1.recorder with
  | none => (Except.error "No active recording", s1, eff0)
  | some _ =>
    let s2 : AppStateM := { s1 with recorder := none }
    match s2.config with
    | none => (Except.error "Config not loaded", s2, eff0)
    | some _ =>
      match env.stopSave with
      | Except.error e => (Except.error e, s2, eff0)
      | Except.ok audio =>
        let tr : Except String String :=
          match audio with
          | AudioResult.single d => env.transcribeSingle d
          | AudioResult.chunked cs => env.transcribeChunked cs
        let eff1 : Effects := ⟨1, [], [RecordingState.Processing]⟩
        match tr with
        | Except.error e => (Except.error e, s2, eff1)
        | Except.ok text =>
          if env.clipboardOk then
            (Except.ok (),
             { s2 with state := RecordingState.Idle },
             ⟨1, [text], [RecordingState.Processing, RecordingState.Idle]⟩)
          else
            (Except.error "Failed to copy text to clipboard", s2, eff1)

/-- `start_recording_sync` from `tray.rs` lines 141-173: if no config is
cached, resolve the API key from settings, falling back to the environment
variable (absence is an error, state untouched); then create and start the
recorder (errors reported, state untouched, though a freshly resolved config
stays cached); on success store the handle, set state to `Recording` and push
a UI refresh. -/
def start_recording_sync (env : StartEnv) (s : AppStateM) :
    Except String Unit × AppStateM × Effects :=
  let cfgLoad : Except String AppStateM :=
    match s.config with
    | some _ => Except.ok s
    | none =>
      match (match s.settings.openai_api_key with
             | some k => some k
             | none => env.envApiKey) with
      | none => Except.error "No API key configured. Add it in Settings > API Keys."
      | some k => Except.ok { s with config := some ⟨k⟩ }
  match cfgLoad with
  | Except.error e => (Except.error e, s, ⟨0, [], []⟩)
  | Except.ok s1 =>
    match env.recorderNew with
    | Except.error e => (Except.error e, s1, ⟨0, [], []⟩)
    | Except.ok r =>
      match env.startRecording with
      | Except.error e => (Except.error e, s1, ⟨0, [], []⟩)
      | Except.ok _ =>
        (Except.ok (),
         { s1 with recorder := some r, state := RecordingState.Recording },
         ⟨0, [], [RecordingState.Recording]⟩)

/-- `toggle_recording` from `tray.rs` lines 115-139: dispatch on the current
state; `Idle` starts a recording, `Recording` stops and transcribes (errors
are only logged), `Processing` is explicitly ignored. -/
def toggle_recording (senv : StartEnv) (tenv : TranscribeEnv) (s : AppStateM) :
    AppStateM × Effects :=
  match s.state with
  | RecordingState.Idle =>
    let r := start_recording_sync senv s
    (r.2.1, r.2.2)
  | RecordingState.Recording =>
    let r := stop_and_transcribe tenv s
    (r.2.1, r.2.2)
  | RecordingState.Processing => (s, ⟨0, [], []⟩)

/-- Outcome of the portal `bind_shortcuts` round-trip in
`setup_portal_shortcuts`: the transport call failed, the response was
rejected, or a response with `(id, trigger_description)` pairs arrived. -/
inductive BindOutcome
  | callFailed (e : String)
  | responseFailed (e : String)
  | responded (shortcuts : List (String × String))

/-- The state-affecting part of `setup_portal_shortcuts` (`shortcuts.rs`
lines 177-220): the dconf-derived display value (`dconf`) is published into
shared state first; then, on a successful bind whose response lists
"toggle-recording" with a non-empty trigger description, that trigger
overwrites the cached value; a failed call or rejected response leaves the
dconf value in place. The Boolean records that the flow proceeds to the
activation-listening loop in every case (bind failure is non-fatal). -/
def setup_portal_bind (dconf : Option String) (out : BindOutcome) : Option String × Bool :=
  let cached : Option String := dconf
  match out with
  | BindOutcome.responded ss =>
    (match ss.find? (fun p => p.1 == "toggle-recording") with
     | some p => if p.2 = "" then cached else some p.2
     | none => cached, true)
  | BindOutcome.responseFailed _ => (cached, true)
  | BindOutcome.callFailed _ => (cached, true)

/-- A concrete all-success collaborator environment for evaluation. -/
def tenvOk : TranscribeEnv :=
  { stopSave := Except.ok (AudioResult.single 0)
    transcribeSingle := fun _ => Except.ok "hello"
    transcribeChunked := fun _ => Except.ok "hello"
    clipboardOk := true }

/-- Concrete state: `Recording`, but the audio handle is absent. -/
def sRecNoHandle : AppStateM :=
  { state := RecordingState.Recording
    recorder := none
    config := some ⟨"sk-key"⟩
    settings := { shortcut := "Ctrl+Shift+R", openai_api_key := none }
    portal_shortcut := none }

/-- Concrete state: `Recording` with a handle but no cached config and no
credential anywhere. -/
def sRecNoConfig : AppStateM :=
  { state := RecordingState.Recording
    recorder := some ⟨0⟩
    config := none
    settings := { shortcut := "Ctrl+Shift+R", openai_api_key := none }
    portal_shortcut := none }

/-- A concrete all-success start environment. -/
def senvOk : StartEnv :=
  { envApiKey := none
    recorderNew := Except.ok ⟨1⟩
    startRecording := Except.ok () }

/-- Concrete `Idle` state with a cached config. -/
def sIdle : AppStateM :=
  { state := RecordingState.Idle
    recorder := none
    config := some ⟨"sk-key"⟩
    settings := { shortcut := "Ctrl+Shift+R", openai_api_key := none }
    portal_shortcut := none }

/-- Concrete `Processing` state. -/
def sProcessing : AppStateM :=
  { sIdle with state := RecordingState.Processing }

/-- Rust `str::replace(pat, rep)` at the character level: scan left to right,
replacing non-overlapping occurrences of `pat`. All patterns used by the code
are nonempty; the emptiness guard only serves termination. -/
def replaceL (pat rep : List Char) : List Char → List Char
  | [] => []
  | c :: rest =>
    if h : pat ≠ [] ∧ pat.isPrefixOf (c :: rest) then
      rep ++ replaceL pat rep (List.drop pat.length (c :: rest))
    else
      c :: replaceL pat rep rest
termination_by s => s.length
decreasing_by
  · simp only [List.length_drop, List.length_cons]
    have hp : 0 < pat.length := List.length_pos.mpr h.1
    omega
  · simp only [List.length_cons]
    omega

/-- Index of the last '+' in the string (Rust `str::rfind('+')`, char level). -/
def rfindPlus : List Char → Option Nat
  | [] => none
  | c :: t =>
    match rfindPlus t with
    | some i => some (i + 1)
    | none => if c = '+' then some 0 else none

/-- The tail of `convert_gvariant_shortcut`: split after the last '+' and
uppercase the trailing key part (Rust `split_at(last_plus + 1)` followed by
`to_uppercase`, which on these ASCII chords is per-char `Char.toUpper`); with
no '+' present, uppercase the whole string. -/
def upAfterLastPlus (s : List Char) : List Char :=
  match rfindPlus s with
  | some i => s.take (i + 1) ++ (s.drop (i + 1)).map Char.toUpper
  | none => s.map Char.toUpper

/-- `convert_gvariant_shortcut` from `shortcuts.rs` lines 149-163: the four
modifier-token replacements in source order, then the uppercase-after-last-'+'
step. -/
def convert_gvariant_shortcut (raw : List Char) : List Char :=
  let converted :=
    replaceL "<Super>".data "Super+".data
      (replaceL "<Shift>".data "Shift+".data
        (replaceL "<Alt>".data "Alt+".data
          (replaceL "<Control>".data "Ctrl+".data raw)))
  upAfterLastPlus converted

/-- The modifier tokens recognized by `convert_gvariant_shortcut`. -/
inductive GMod
  | control
  | alt
  | shift
  | super
deriving DecidableEq, Repr

/-- Raw dconf token of a modifier. -/
def GMod.tok : GMod → List Char
  | GMod.control => "<Control>".data
  | GMod.alt => "<Alt>".data
  | GMod.shift => "<Shift>".data
  | GMod.super => "<Super>".data

/-- Display name (with trailing '+') of a modifier. -/
def GMod.disp : GMod → List Char
  | GMod.control => "Ctrl+".data
  | GMod.alt => "Alt+".data
  | GMod.shift => "Shift+".data
  | GMod.super => "Super+".data

/-- Token state after the `<Control>` replacement pass. -/
def GMod.tok1 : GMod → List Char
  | GMod.control => "Ctrl+".data
  | m => m.tok

/-- Token state after the `<Alt>` replacement pass. -/
def GMod.tok2 : GMod → List Char
  | GMod.alt => "Alt+".data
  | m => m.tok1

/-- Token state after the `<Shift>` replacement pass. -/
def GMod.tok3 : GMod → List Char
  | GMod.shift => "Shift+".data
  | m => m.tok2

/-- A raw configuration-database chord: bracketed modifier tokens followed by
a bare key character, e.g. `<Control><Alt>m`. -/
def chordRaw (mods : List GMod) (k : Char) : List Char :=
  (mods.map GMod.tok).flatten ++ [k]

end Whis

namespace Whis

/-- C3: backend selection is the deterministic function of
(session_type, wayland_display_present, portal_probe_result) stated by the
claim: Wayland signals with probe support give `PortalGlobalShortcuts`
(the spec's PortalProtocol), Wayland without support gives `CLIFallback`
(CliFallback), anything else gives `TauriPlugin` (NativeHotkey). -/
theorem detect_backend_eq_claimSelect (e : EnvProbe) :
    (detect_backend e).backend =
      claimBackendSelect (e.xdgSessionType.getD "") e.waylandDisplaySet
        (e.portalProbe.getD false) := by
  unfold detect_backend claimBackendSelect check_portal_available
  by_cases h : e.xdgSessionType.getD "" = "wayland" ∨ e.waylandDisplaySet
  · by_cases hp : e.portalProbe.getD false <;> simp [h, hp]
  · simp [h]

/-- C4: per accepted IPC connection, only the first 64 bytes are considered;
a payload whose trimmed form equals "toggle" causes exactly one dispatcher
invocation, any other payload causes zero, and a read error also causes zero
(`handleConnection` is total, so no error surfaces to the listener loop). -/
theorem ipc_connection_dispatch (bytes : List Char) (e : String) :
    handleConnection (Except.error e) = 0 ∧
    (trimChars (bytes.take 64) = "toggle".data → handleConnection (Except.ok bytes) = 1) ∧
    (trimChars (bytes.take 64) ≠ "toggle".data → handleConnection (Except.ok bytes) = 0) ∧
    handleConnection (Except.ok bytes) = handleConnection (Except.ok (bytes.take 64)) := by
  refine ⟨rfl, ?_, ?_, ?_⟩
  · intro h; simp [handleConnection, h]
  · intro h; simp [handleConnection, h]
  · simp [handleConnection, List.take_take]

/-- Witness for `ipc_connection_dispatch` at concrete payloads: " toggle\n"
dispatches once, "stop" does not. -/
theorem ipc_connection_dispatch_witness :
    handleConnection (Except.ok " toggle\n".data) = 1 ∧
    handleConnection (Except.ok "stop".data) = 0 := by
  exact ⟨(ipc_connection_dispatch " toggle\n".data "").2.1 (by decide),
         (ipc_connection_dispatch "stop".data "").2.2.1 (by decide)⟩

/-- C9: `open_configure_shortcuts` rejects every portal version below 2 with
an unsupported-version error, opening no dialog and issuing no re-bind; for
version 2 or greater it proceeds (re-bind issued, dialog opened, trigger
returned from the final list query). -/
theorem open_configure_shortcuts_version_gate (v : Nat) (ls : List (String × String)) :
    (v < 2 →
      (∃ msg, (open_configure_shortcuts v ls).1 = Except.error msg) ∧
      (open_configure_shortcuts v ls).2.1 = false ∧
      (open_configure_shortcuts v ls).2.2 = false) ∧
    (2 ≤ v →
      (open_configure_shortcuts v ls).1 =
        Except.ok ((ls.find? fun p => p.1 == "toggle-recording").map (fun p => p.2)) ∧
      (open_configure_shortcuts v ls).2.1 = true ∧
      (open_configure_shortcuts v ls).2.2 = true) := by
  constructor
  · intro h
    simp [open_configure_shortcuts, h]
  · intro h
    simp [open_configure_shortcuts, Nat.not_lt.mpr h]

/-- Witness for `open_configure_shortcuts_version_gate`: version 1 is
rejected, version 2 proceeds. -/
theorem open_configure_shortcuts_version_gate_witness :
    (∃ msg, (open_configure_shortcuts 1 []).1 = Except.error msg) ∧
    (open_configure_shortcuts 2 [("toggle-recording", "Ctrl+Alt+M")]).1 =
      Except.ok (some "Ctrl+Alt+M") := by
  refine ⟨((open_configure_shortcuts_version_gate 1 []).1 (by decide)).1, ?_⟩
  have h := ((open_configure_shortcuts_version_gate 2
    [("toggle-recording", "Ctrl+Alt+M")]).2 (by decide)).1
  simpa using h

/-- C10: settings loading is total: a missing/unreadable file or a parse
failure yields the default settings, whose shortcut is "Ctrl+Shift+R" and
whose API key is absent; no error surfaces to the caller. -/
theorem settings_load_total (readResult : Option String) (parse : String → Option Settings) :
    (readResult = none → Settings.load readResult parse = Settings.default) ∧
    (∀ s, readResult = some s → parse s = none →
      Settings.load readResult parse = Settings.default) ∧
    Settings.default.shortcut = "Ctrl+Shift+R" ∧
    Settings.default.openai_api_key = none := by
  refine ⟨?_, ?_, rfl, rfl⟩
  · intro h; simp [Settings.load, h]
  · intro s h hp; simp [Settings.load, h, hp]

/-- Witness for `settings_load_total`: a missing file and an unparsable file
both load the defaults. -/
theorem settings_load_total_witness :
    Settings.load none (fun _ => none) = Settings.default ∧
    Settings.load (some "not json") (fun _ => none) = Settings.default := by
  exact ⟨(settings_load_total none (fun _ => none)).1 rfl,
         (settings_load_total (some "not json") (fun _ => none)).2.1 "not json" rfl rfl⟩

/-- C1 (code-bug evidence): the claim says every failure on the
`Recording → Processing → Idle` path ends with state `Idle`. The code resets
the state only on the full success path, so every failing run ends at
`Processing`: the first conjunct evaluates `stop_and_transcribe` at the
claim's own failure-injection input (audio handle absent) — the error is
returned, no transcription call and no clipboard write happen, but the state
is left at `Processing`; the second conjunct shows every erroring run of
`stop_and_transcribe` ends at `Processing`, never `Idle`. -/
theorem stop_failure_leaves_processing :
    (stop_and_transcribe tenvOk sRecNoHandle =
      (Except.error "No active recording",
       { sRecNoHandle with state := RecordingState.Processing },
       ⟨0, [], [RecordingState.Processing]⟩)) ∧
    (∀ (env : TranscribeEnv) (s : AppStateM) (msg : String),
      (stop_and_transcribe env s).1 = Except.error msg →
      (stop_and_transcribe env s).2.1.state = RecordingState.Processing) := by
  refine ⟨rfl, ?_⟩
  intro env s msg h
  cases hr : s.recorder with
  | none => simp [stop_and_transcribe, hr]
  | some r0 =>
    cases hc : s.config with
    | none => simp [stop_and_transcribe, hr, hc]
    | some c0 =>
      cases hss : env.stopSave with
      | error e => simp [stop_and_transcribe, hr, hc, hss]
      | ok audio =>
        cases audio with
        | single d =>
          cases htr : env.transcribeSingle d with
          | error e => simp [stop_and_transcribe, hr, hc, hss, htr]
          | ok t =>
            by_cases hcb : env.clipboardOk
            · simp [stop_and_transcribe, hr, hc, hss, htr, hcb] at h
            · simp [stop_and_transcribe, hr, hc, hss, htr, hcb]
        | chunked cs =>
          cases htr : env.transcribeChunked cs with
          | error e => simp [stop_and_transcribe, hr, hc, hss, htr]
          | ok t =>
            by_cases hcb : env.clipboardOk
            · simp [stop_and_transcribe, hr, hc, hss, htr, hcb] at h
            · simp [stop_and_transcribe, hr, hc, hss, htr, hcb]

/-- Witness for `stop_failure_leaves_processing`: its universally quantified
conjunct applied at the concrete failing input. -/
theorem stop_failure_leaves_processing_witness :
    (stop_and_transcribe tenvOk sRecNoHandle).2.1.state = RecordingState.Processing :=
  stop_failure_leaves_processing.2 tenvOk sRecNoHandle "No active recording" rfl

/-- C2: a toggle observed while the state is `Processing` is a no-op: the
state aggregate is unchanged (no audio-handle take) and no side effect occurs
— no transcription call, no clipboard write, no UI refresh. -/
theorem toggle_processing_noop (senv : StartEnv) (tenv : TranscribeEnv) (s : AppStateM)
    (h : s.state = RecordingState.Processing) :
    toggle_recording senv tenv s = (s, ⟨0, [], []⟩) := by
  unfold toggle_recording
  rw [h]

/-- Witness for `toggle_processing_noop` at a concrete `Processing` state. -/
theorem toggle_processing_noop_witness :
    toggle_recording senvOk tenvOk sProcessing = (sProcessing, ⟨0, [], []⟩) ∧
    sProcessing.state = RecordingState.Processing :=
  ⟨toggle_processing_noop senvOk tenvOk sProcessing rfl, rfl⟩

/-- C6: in the portal setup flow, a successful bind whose response lists
"toggle-recording" with a non-empty trigger description overwrites the cached
display binding with that trigger; a failed bind call or a rejected response
is non-fatal (the flow proceeds to the activation loop) and the dconf-derived
value published earlier stays cached. -/
theorem portal_bind_overwrite_or_retain (dconf : Option String) (out : BindOutcome) :
    (∀ ss t, out = BindOutcome.responded ss →
      ss.find? (fun p => p.1 == "toggle-recording") = some ("toggle-recording", t) →
      t ≠ "" → setup_portal_bind dconf out = (some t, true)) ∧
    (∀ e, out = BindOutcome.callFailed e → setup_portal_bind dconf out = (dconf, true)) ∧
    (∀ e, out = BindOutcome.responseFailed e → setup_portal_bind dconf out = (dconf, true)) := by
  refine ⟨?_, ?_, ?_⟩
  · intro ss t ho hf ht
    subst ho
    simp [setup_portal_bind, hf, ht]
  · intro e ho; subst ho; rfl
  · intro e ho; subst ho; rfl

/-- Witness for `portal_bind_overwrite_or_retain`: a successful bind
overwrites the dconf value, a failed call keeps it. -/
theorem portal_bind_overwrite_or_retain_witness :
    setup_portal_bind (some "Ctrl+Shift+R")
        (BindOutcome.responded [("toggle-recording", "Ctrl+Alt+M")]) =
      (some "Ctrl+Alt+M", true) ∧
    setup_portal_bind (some "Ctrl+Shift+R") (BindOutcome.callFailed "bind failed") =
      (some "Ctrl+Shift+R", true) :=
  ⟨(portal_bind_overwrite_or_retain (some "Ctrl+Shift+R")
      (BindOutcome.responded [("toggle-recording", "Ctrl+Alt+M")])).1
      [("toggle-recording", "Ctrl+Alt+M")] "Ctrl+Alt+M" rfl (by decide) (by decide),
   (portal_bind_overwrite_or_retain (some "Ctrl+Shift+R")
      (BindOutcome.callFailed "bind failed")).2.1 "bind failed" rfl⟩

/-- C7: on the `Idle --toggle--> Recording` transition, a failure to create
or start the audio capture reports the error to the caller and leaves the
state `Idle` with no audio handle stored and no UI refresh; on success the
handle is stored, the state becomes `Recording`, and a UI refresh is pushed. -/
theorem start_recording_transition (env : StartEnv) (s : AppStateM)
    (hidle : s.state = RecordingState.Idle) (hrec : s.recorder = none)
    (hcred : s.config.isSome ∨ s.settings.openai_api_key.isSome ∨ env.envApiKey.isSome) :
    (∀ e, env.recorderNew = Except.error e →
      (start_recording_sync env s).1 = Except.error e ∧
      (start_recording_sync env s).2.1.state = RecordingState.Idle ∧
      (start_recording_sync env s).2.1.recorder = none ∧
      (start_recording_sync env s).2.2.uiRefreshes = []) ∧
    (∀ r e, env.recorderNew = Except.ok r → env.startRecording = Except.error e →
      (start_recording_sync env s).1 = Except.error e ∧
      (start_recording_sync env s).2.1.state = RecordingState.Idle ∧
      (start_recording_sync env s).2.1.recorder = none ∧
      (start_recording_sync env s).2.2.uiRefreshes = []) ∧
    (∀ r, env.recorderNew = Except.ok r → env.startRecording = Except.ok () →
      (start_recording_sync env s).1 = Except.ok () ∧
      (start_recording_sync env s).2.1.state = RecordingState.Recording ∧
      (start_recording_sync env s).2.1.recorder = some r ∧
      (start_recording_sync env s).2.2.uiRefreshes = [RecordingState.Recording]) := by
  cases hc : s.config with
  | some c0 =>
    refine ⟨?_, ?_, ?_⟩
    · intro e hrn
      simp [start_recording_sync, hc, hrn, hidle, hrec]
    · intro r e hrn hsr
      simp [start_recording_sync, hc, hrn, hsr, hidle, hrec]
    · intro r hrn hsr
      simp [start_recording_sync, hc, hrn, hsr]
  | none =>
    cases hk : s.settings.openai_api_key with
    | some k =>
      refine ⟨?_, ?_, ?_⟩
      · intro e hrn
        simp [start_recording_sync, hc, hk, hrn, hidle, hrec]
      · intro r e hrn hsr
        simp [start_recording_sync, hc, hk, hrn, hsr, hidle, hrec]
      · intro r hrn hsr
        simp [start_recording_sync, hc, hk, hrn, hsr]
    | none =>
      cases he : env.envApiKey with
      | some k =>
        refine ⟨?_, ?_, ?_⟩
        · intro e hrn
          simp [start_recording_sync, hc, hk, he, hrn, hidle, hrec]
        · intro r e hrn hsr
          simp [start_recording_sync, hc, hk, he, hrn, hsr, hidle, hrec]
        · intro r hrn hsr
          simp [start_recording_sync, hc, hk, he, hrn, hsr]
      | none =>
        exfalso
        simp [hc, hk, he] at hcred

/-- Witness for `start_recording_transition`: a successful start from a
concrete `Idle` state stores the handle and moves to `Recording`. -/
theorem start_recording_transition_witness :
    (start_recording_sync senvOk sIdle).1 = Except.ok () ∧
    (start_recording_sync senvOk sIdle).2.1.state = RecordingState.Recording ∧
    (start_recording_sync senvOk sIdle).2.1.recorder = some ⟨1⟩ := by
  have h := (start_recording_transition senvOk sIdle rfl rfl (Or.inl (by decide))).2.2
    ⟨1⟩ rfl rfl
  exact ⟨h.1, h.2.1, h.2.2.1⟩

/-- C8 counterexample: the claim says that during `Recording → Processing`
the credential is resolved with a settings→environment fallback and that its
absence returns the state to `Idle`. At a concrete `Recording` state with an
empty config cache and no settings key, the code instead fails with
"Config not loaded" (no environment fallback is consulted at this point) and
leaves the state at `Processing`, not `Idle`. -/
theorem credential_claim_counterexample :
    (stop_and_transcribe tenvOk sRecNoConfig).2.1.state ≠ RecordingState.Idle ∧
    (stop_and_transcribe tenvOk sRecNoConfig).1 = Except.error "Config not loaded" ∧
    sRecNoConfig.config = none ∧
    sRecNoConfig.settings.openai_api_key = none ∧
    (stop_and_transcribe tenvOk sRecNoConfig).2.2.transcribeCalls = 0 ∧
    (stop_and_transcribe tenvOk sRecNoConfig).2.2.clipboardWrites = [] := by
  refine ⟨by decide, rfl, rfl, rfl, rfl, rfl⟩

/-- C8 (amended): the settings→environment credential fallback happens during
`Idle → Recording` (`start_recording_sync` caches the resolved key; with
neither source available it aborts and leaves the state untouched); during
`Recording → Processing` the credential is read from that cache only, and an
empty cache aborts the transition with "Config not loaded" before any
transcription or clipboard call, leaving the state at `Processing`. -/
theorem credential_resolution_amended :
    (∀ (env : StartEnv) (s : AppStateM) (k : String), s.config = none →
      s.settings.openai_api_key = some k →
      (start_recording_sync env s).2.1.config = some ⟨k⟩) ∧
    (∀ (env : StartEnv) (s : AppStateM) (k : String), s.config = none →
      s.settings.openai_api_key = none → env.envApiKey = some k →
      (start_recording_sync env s).2.1.config = some ⟨k⟩) ∧
    (∀ (env : StartEnv) (s : AppStateM), s.config = none →
      s.settings.openai_api_key = none → env.envApiKey = none →
      (start_recording_sync env s).1 =
        Except.error "No API key configured. Add it in Settings > API Keys." ∧
      (start_recording_sync env s).2.1 = s) ∧
    (∀ (tenv : TranscribeEnv) (s : AppStateM) (r : Recorder), s.recorder = some r →
      s.config = none →
      (stop_and_transcribe tenv s).1 = Except.error "Config not loaded" ∧
      (stop_and_transcribe tenv s).2.1.state = RecordingState.Processing ∧
      (stop_and_transcribe tenv s).2.2.transcribeCalls = 0 ∧
      (stop_and_transcribe tenv s).2.2.clipboardWrites = []) := by
  refine ⟨?_, ?_, ?_, ?_⟩
  · intro env s k hc hk
    cases hrn : env.recorderNew with
    | error e => simp [start_recording_sync, hc, hk, hrn]
    | ok r =>
      cases hsr : env.startRecording with
      | error e => simp [start_recording_sync, hc, hk, hrn, hsr]
      | ok u => simp [start_recording_sync, hc, hk, hrn, hsr]
  · intro env s k hc hk he
    cases hrn : env.recorderNew with
    | error e => simp [start_recording_sync, hc, hk, he, hrn]
    | ok r =>
      cases hsr : env.startRecording with
      | error e => simp [start_recording_sync, hc, hk, he, hrn, hsr]
      | ok u => simp [start_recording_sync, hc, hk, he, hrn, hsr]
  · intro env s hc hk he
    simp [start_recording_sync, hc, hk, he]
  · intro tenv s r hr hc
    simp [stop_and_transcribe, hr, hc]

theorem not_isPrefixOf_cons1 {p c : Char} {pr t : List Char} (h : p ≠ c) :
    ¬ ((p :: pr).isPrefixOf (c :: t) = true) := by
  simp [List.isPrefixOf, h]

theorem not_isPrefixOf_cons2 {p1 p2 c1 c2 : Char} {pr t : List Char} (h : p2 ≠ c2) :
    ¬ ((p1 :: p2 :: pr).isPrefixOf (c1 :: c2 :: t) = true) := by
  simp [List.isPrefixOf, h]

theorem not_isPrefixOf_cons3 {p1 p2 p3 c1 c2 c3 : Char} {pr t : List Char} (h : p3 ≠ c3) :
    ¬ ((p1 :: p2 :: p3 :: pr).isPrefixOf (c1 :: c2 :: c3 :: t) = true) := by
  simp [List.isPrefixOf, h]

theorem replaceL_nil (pat rep : List Char) : replaceL pat rep [] = [] := by
  simp [replaceL]

theorem replaceL_cons_neg {pat : List Char} (rep : List Char) {c : Char} {t : List Char}
    (h : ¬ (pat.isPrefixOf (c :: t) = true)) :
    replaceL pat rep (c :: t) = c :: replaceL pat rep t := by
  rw [replaceL]
  rw [dif_neg (fun hh => h hh.2)]

theorem replaceL_head {pat : List Char} (rep : List Char) (t : List Char) (hpat : pat ≠ []) :
    replaceL pat rep (pat ++ t) = rep ++ replaceL pat rep t := by
  obtain ⟨p, pr, rfl⟩ : ∃ p pr, pat = p :: pr := by
    cases pat with
    | nil => exact absurd rfl hpat
    | cons p pr => exact ⟨p, pr, rfl⟩
  have hpre : ((p :: pr).isPrefixOf ((p :: pr) ++ t)) = true := by
    rw [List.isPrefixOf_iff_prefix]
    exact List.prefix_append _ _
  rw [List.cons_append, replaceL]
  rw [dif_pos ⟨hpat, by simpa using hpre⟩]
  have hd : List.drop (p :: pr).length (p :: (pr ++ t)) = t := by
    simpa using List.drop_left (p :: pr) t
  rw [hd]

theorem replaceL_skip {pat : List Char} (rep : List Char) {u : List Char} (t : List Char)
    (hpat : ∃ pr, pat = '<' :: pr) (hu : ∀ c ∈ u, c ≠ '<') :
    replaceL pat rep (u ++ t) = u ++ replaceL pat rep t := by
  induction u with
  | nil => simp
  | cons c u ih =>
    obtain ⟨pr, hp⟩ := hpat
    have hc : c ≠ '<' := hu c (List.mem_cons_self _ _)
    have hnp : ¬ (pat.isPrefixOf (c :: (u ++ t)) = true) := by
      rw [hp]
      exact not_isPrefixOf_cons1 (Ne.symm hc)
    rw [List.cons_append, replaceL_cons_neg rep hnp]
    rw [ih (fun d hd => hu d (List.mem_cons_of_mem _ hd))]
    rfl

/-- One replacement pass over a chord: if each mapped token either equals the
pattern (and is replaced by `rep`) or can never host a pattern occurrence,
the pass rewrites the token list pointwise and leaves the key alone. -/
theorem replaceL_flatten_stage (pat rep : List Char) (f g : GMod → List Char)
    (hpat : ∃ pr, pat = '<' :: pr) (hpe : pat ≠ [])
    (hcase : ∀ m : GMod,
      (f m = pat ∧ g m = rep) ∨
      (g m = f m ∧ (∀ t, ¬ (pat.isPrefixOf (f m ++ t) = true)) ∧
        ∃ c u, f m = c :: u ∧ ∀ d ∈ u, d ≠ '<'))
    (k : Char) (hk : k ≠ '<') (mods : List GMod) :
    replaceL pat rep ((mods.map f).flatten ++ [k]) = (mods.map g).flatten ++ [k] := by
  induction mods with
  | nil =>
    obtain ⟨pr, hp⟩ := hpat
    have hnp : ¬ (pat.isPrefixOf (k :: ([] : List Char)) = true) := by
      rw [hp]
      exact not_isPrefixOf_cons1 (Ne.symm hk)
    simp only [List.map_nil, List.flatten_nil, List.nil_append]
    rw [show ([k] : List Char) = k :: [] from rfl, replaceL_cons_neg rep hnp, replaceL_nil]
  | cons m ms ih =>
    simp only [List.map_cons, List.flatten_cons, List.append_assoc]
    rcases hcase m with ⟨hf, hg⟩ | ⟨hg, hnp, c, u, hfm, hu⟩
    · rw [hf, replaceL_head rep _ hpe, ih, hg]
    · have hnp' : ¬ (pat.isPrefixOf (c :: (u ++ ((ms.map f).flatten ++ [k]))) = true) := by
        have h2 := hnp ((ms.map f).flatten ++ [k])
        rw [hfm] at h2
        simpa using h2
      rw [hfm, List.cons_append, replaceL_cons_neg rep hnp',
          replaceL_skip rep _ hpat hu, ih, hg, hfm, List.cons_append]

theorem stage_control (k : Char) (hk : k ≠ '<') (mods : List GMod) :
    replaceL "<Control>".data "Ctrl+".data (chordRaw mods k) =
      (mods.map GMod.tok1).flatten ++ [k] := by
  refine replaceL_flatten_stage "<Control>".data "Ctrl+".data GMod.tok GMod.tok1
    ⟨"Control>".data, by decide⟩ (by decide) ?_ k hk mods
  intro m
  cases m with
  | control => exact Or.inl ⟨rfl, rfl⟩
  | alt =>
    exact Or.inr ⟨rfl, fun t => not_isPrefixOf_cons2 (by decide), '<', "Alt>".data, rfl, by decide⟩
  | shift =>
    exact Or.inr ⟨rfl, fun t => not_isPrefixOf_cons2 (by decide), '<', "Shift>".data, rfl, by decide⟩
  | super =>
    exact Or.inr ⟨rfl, fun t => not_isPrefixOf_cons2 (by decide), '<', "Super>".data, rfl, by decide⟩

theorem stage_alt (k : Char) (hk : k ≠ '<') (mods : List GMod) :
    replaceL "<Alt>".data "Alt+".data ((mods.map GMod.tok1).flatten ++ [k]) =
      (mods.map GMod.tok2).flatten ++ [k] := by
  refine replaceL_flatten_stage "<Alt>".data "Alt+".data GMod.tok1 GMod.tok2
    ⟨"Alt>".data, by decide⟩ (by decide) ?_ k hk mods
  intro m
  cases m with
  | control =>
    exact Or.inr ⟨rfl, fun t => not_isPrefixOf_cons1 (by decide), 'C', "trl+".data, rfl, by decide⟩
  | alt => exact Or.inl ⟨rfl, rfl⟩
  | shift =>
    exact Or.inr ⟨rfl, fun t => not_isPrefixOf_cons2 (by decide), '<', "Shift>".data, rfl, by decide⟩
  | super =>
    exact Or.inr ⟨rfl, fun t => not_isPrefixOf_cons2 (by decide), '<', "Super>".data, rfl, by decide⟩

theorem stage_shift (k : Char) (hk : k ≠ '<') (mods : List GMod) :
    replaceL "<Shift>".data "Shift+".data ((mods.map GMod.tok2).flatten ++ [k]) =
      (mods.map GMod.tok3).flatten ++ [k] := by
  refine replaceL_flatten_stage "<Shift>".data "Shift+".data GMod.tok2 GMod.tok3
    ⟨"Shift>".data, by decide⟩ (by decide) ?_ k hk mods
  intro m
  cases m with
  | control =>
    exact Or.inr ⟨rfl, fun t => not_isPrefixOf_cons1 (by decide), 'C', "trl+".data, rfl, by decide⟩
  | alt =>
    exact Or.inr ⟨rfl, fun t => not_isPrefixOf_cons1 (by decide), 'A', "lt+".data, rfl, by decide⟩
  | shift => exact Or.inl ⟨rfl, rfl⟩
  | super =>
    exact Or.inr ⟨rfl, fun t => not_isPrefixOf_cons3 (by decide), '<', "Super>".data, rfl, by decide⟩

theorem stage_super (k : Char) (hk : k ≠ '<') (mods : List GMod) :
    replaceL "<Super>".data "Super+".data ((mods.map GMod.tok3).flatten ++ [k]) =
      (mods.map GMod.disp).flatten ++ [k] := by
  refine replaceL_flatten_stage "<Super>".data "Super+".data GMod.tok3 GMod.disp
    ⟨"Super>".data, by decide⟩ (by decide) ?_ k hk mods
  intro m
  cases m with
  | control =>
    exact Or.inr ⟨rfl, fun t => not_isPrefixOf_cons1 (by decide), 'C', "trl+".data, rfl, by decide⟩
  | alt =>
    exact Or.inr ⟨rfl, fun t => not_isPrefixOf_cons1 (by decide), 'A', "lt+".data, rfl, by decide⟩
  | shift =>
    exact Or.inr ⟨rfl, fun t => not_isPrefixOf_cons1 (by decide), 'S', "hift+".data, rfl, by decide⟩
  | super => exact Or.inl ⟨rfl, rfl⟩

theorem rfindPlus_append_not_plus (A : List Char) {k : Char} (hk : k ≠ '+') :
    rfindPlus (A ++ [k]) = rfindPlus A := by
  induction A with
  | nil => simp [rfindPlus, hk]
  | cons c t ih => simp [rfindPlus, ih]

theorem rfindPlus_append_plus (B : List Char) :
    rfindPlus (B ++ ['+']) = some B.length := by
  induction B with
  | nil => simp [rfindPlus]
  | cons c t ih => simp [rfindPlus, ih]

/-- A nonempty modifier display sequence ends in '+'. -/
theorem flatten_disp_ends_plus (mods : List GMod) (h : mods ≠ []) :
    ∃ C, (mods.map GMod.disp).flatten = C ++ ['+'] := by
  induction mods with
  | nil => exact absurd rfl h
  | cons m ms ih =>
    cases hms : ms with
    | nil =>
      cases m with
      | control => exact ⟨"Ctrl".data, by decide⟩
      | alt => exact ⟨"Alt".data, by decide⟩
      | shift => exact ⟨"Shift".data, by decide⟩
      | super => exact ⟨"Super".data, by decide⟩
    | cons m2 ms2 =>
      obtain ⟨C, hC⟩ := ih (by simp [hms])
      refine ⟨GMod.disp m ++ C, ?_⟩
      rw [← hms]
      simp only [List.map_cons, List.flatten_cons, hC, List.append_assoc]

theorem upAfterLastPlus_shape (C : List Char) {k : Char} (hk : k ≠ '+') :
    upAfterLastPlus ((C ++ ['+']) ++ [k]) = (C ++ ['+']) ++ [k.toUpper] := by
  unfold upAfterLastPlus
  rw [rfindPlus_append_not_plus _ hk, rfindPlus_append_plus]
  show List.take (C.length + 1) ((C ++ ['+']) ++ [k]) ++
      (List.drop (C.length + 1) ((C ++ ['+']) ++ [k])).map Char.toUpper =
      (C ++ ['+']) ++ [k.toUpper]
  have hlen : C.length + 1 = (C ++ ['+']).length := by simp
  rw [hlen, List.take_left, List.drop_left]
  rfl

/-- C5: converting a raw chord (bracketed modifier tokens followed by a bare
key character) replaces each modifier token with its display name followed by
'+' and upper-cases only the trailing key character after the last '+'. -/
theorem convert_gvariant_shortcut_chord (mods : List GMod) (k : Char)
    (hk1 : k ≠ '<') (hk2 : k ≠ '+') :
    convert_gvariant_shortcut (chordRaw mods k) =
      (mods.map GMod.disp).flatten ++ [k.toUpper] := by
  unfold convert_gvariant_shortcut
  rw [stage_control k hk1 mods, stage_alt k hk1 mods, stage_shift k hk1 mods,
      stage_super k hk1 mods]
  by_cases h : mods = []
  · subst h
    simp [upAfterLastPlus, rfindPlus, hk2]
  · obtain ⟨C, hC⟩ := flatten_disp_ends_plus mods h
    rw [hC]
    exact upAfterLastPlus_shape C hk2

/-- Witness for `convert_gvariant_shortcut_chord`: the stored value
`<Control><Alt>m` converts to exactly "Ctrl+Alt+M". -/
theorem convert_gvariant_shortcut_chord_witness :
    convert_gvariant_shortcut "<Control><Alt>m".data = "Ctrl+Alt+M".data := by
  have h := convert_gvariant_shortcut_chord [GMod.control, GMod.alt] 'm'
    (by decide) (by decide)
  have e1 : chordRaw [GMod.control, GMod.alt] 'm' = "<Control><Alt>m".data := by decide
  have e2 : (([GMod.control, GMod.alt].map GMod.disp).flatten ++ ['m'.toUpper]) =
      "Ctrl+Alt+M".data := by decide
  rw [e1, e2] at h
  exact h

/-- Witness for `credential_resolution_amended` at the concrete
no-credential `Recording` state. -/
theorem credential_resolution_amended_witness :
    (stop_and_transcribe tenvOk sRecNoConfig).1 = Except.error "Config not loaded" ∧
    (stop_and_transcribe tenvOk sRecNoConfig).2.1.state = RecordingState.Processing :=
  ⟨(credential_resolution_amended.2.2.2 tenvOk sRecNoConfig ⟨0⟩ rfl rfl).1,
   (credential_resolution_amended.2.2.2 tenvOk sRecNoConfig ⟨0⟩ rfl rfl).2.1⟩

end Whis
